import Mathlib

/-!
Formal model of `src/libslic3r/SLA/Hollowing.cpp` (PrusaSlicer SLA hollowing):
the interior-shell generation pipeline `_generate_interior` / `generate_interior`
and the `DrainHole` geometry queries `is_inside` and `get_intersections`.

Machine floating-point numbers are modelled as real numbers.  The Eigen
primitives the source calls (`Eigen::Hyperplane`, `Eigen::ParametrizedLine`)
are embedded with the exact formulas of the Eigen member functions used.
-/

/-- 3D vector with real components, modelling `Vec3f` / `Vec3d`. -/
structure Vec3 where
  x : ℝ
  y : ℝ
  z : ℝ

instance : Add Vec3 := ⟨fun a b => ⟨a.x + b.x, a.y + b.y, a.z + b.z⟩⟩

instance : Sub Vec3 := ⟨fun a b => ⟨a.x - b.x, a.y - b.y, a.z - b.z⟩⟩

instance : Neg Vec3 := ⟨fun a => ⟨-a.x, -a.y, -a.z⟩⟩

instance : SMul ℝ Vec3 := ⟨fun c v => ⟨c * v.x, c * v.y, c * v.z⟩⟩

instance : Zero Vec3 := ⟨⟨0, 0, 0⟩⟩

/-- Eigen `a.dot(b)`. -/
def Vec3.dot (a b : Vec3) : ℝ := a.x * b.x + a.y * b.y + a.z * b.z

/-- Eigen `v.squaredNorm()`. -/
def Vec3.sqNorm (v : Vec3) : ℝ := v.dot v

/-- Eigen `v.norm()`. -/
noncomputable def Vec3.norm (v : Vec3) : ℝ := Real.sqrt v.sqNorm

/-- Eigen `v.normalized()` (`v / v.norm()`). -/
noncomputable def Vec3.normalized (v : Vec3) : Vec3 := (1 / v.norm) • v

theorem Vec3.add_def (a b : Vec3) : a + b = ⟨a.x + b.x, a.y + b.y, a.z + b.z⟩ := rfl

theorem Vec3.sub_def (a b : Vec3) : a - b = ⟨a.x - b.x, a.y - b.y, a.z - b.z⟩ := rfl

theorem Vec3.neg_def (a : Vec3) : -a = ⟨-a.x, -a.y, -a.z⟩ := rfl

theorem Vec3.smul_def (c : ℝ) (v : Vec3) : c • v = ⟨c * v.x, c * v.y, c * v.z⟩ := rfl

theorem Vec3.zero_def : (0 : Vec3) = ⟨0, 0, 0⟩ := rfl

theorem Vec3.dot_comm (a b : Vec3) : a.dot b = b.dot a := by
  simp only [Vec3.dot]; ring

theorem Vec3.dot_sub (a b c : Vec3) : a.dot (b - c) = a.dot b - a.dot c := by
  simp only [Vec3.dot, Vec3.sub_def]; ring

theorem Vec3.dot_smul_right (a : Vec3) (c : ℝ) (v : Vec3) :
    a.dot (c • v) = c * a.dot v := by
  simp only [Vec3.dot, Vec3.smul_def]; ring

theorem Vec3.smul_smul_eq (a b : ℝ) (v : Vec3) : a • (b • v) = (a * b) • v := by
  simp only [Vec3.smul_def, Vec3.mk.injEq]; refine ⟨by ring, by ring, by ring⟩

theorem Vec3.sqNorm_smul (c : ℝ) (v : Vec3) : (c • v).sqNorm = c ^ 2 * v.sqNorm := by
  simp only [Vec3.sqNorm, Vec3.dot, Vec3.smul_def]; ring

theorem Vec3.sqNorm_nonneg (v : Vec3) : 0 ≤ v.sqNorm := by
  simp only [Vec3.sqNorm, Vec3.dot]
  have hx := mul_self_nonneg v.x
  have hy := mul_self_nonneg v.y
  have hz := mul_self_nonneg v.z
  linarith

theorem Vec3.norm_smul (c : ℝ) (v : Vec3) : (c • v).norm = |c| * v.norm := by
  simp only [Vec3.norm, Vec3.sqNorm_smul]
  rw [Real.sqrt_mul (sq_nonneg c), Real.sqrt_sq_eq_abs]

/-- Normalisation ignores positive rescaling of the input vector. -/
theorem Vec3.normalized_smul (c : ℝ) (v : Vec3) (hc : 0 < c) :
    (c • v).normalized = v.normalized := by
  simp only [Vec3.normalized, Vec3.norm_smul, abs_of_pos hc, Vec3.smul_smul_eq]
  by_cases hv : v.norm = 0
  · simp [hv]
  · have hcne : c ≠ 0 := ne_of_gt hc
    congr 1
    field_simp

/-- Eigen `ParametrizedLine<float,3>`: origin plus direction, as constructed
by the source (`ParametrizedLine(origin, direction)`). -/
structure ParametrizedLine where
  origin : Vec3
  direction : Vec3

/-- Eigen `ParametrizedLine::pointAt(t) = origin + t * direction`. -/
def ParametrizedLine.pointAt (l : ParametrizedLine) (t : ℝ) : Vec3 :=
  l.origin + t • l.direction

/-- Eigen `ParametrizedLine::projection(p) = origin + direction.dot(p-origin) * direction`. -/
def ParametrizedLine.projPoint (l : ParametrizedLine) (p : Vec3) : Vec3 :=
  l.origin + (l.direction.dot (p - l.origin)) • l.direction

/-- Eigen `ParametrizedLine::squaredDistance(p)`:
`diff = p - origin; (diff - diff.dot(direction)*direction).squaredNorm()`. -/
def ParametrizedLine.squaredDistance (l : ParametrizedLine) (p : Vec3) : ℝ :=
  ((p - l.origin) - ((p - l.origin).dot l.direction) • l.direction).sqNorm

/-- Eigen `Hyperplane<float,3>` stored as normal coefficients plus offset. -/
structure Hyperplane where
  normal : Vec3
  offset : ℝ

/-- The Eigen constructor `Hyperplane(n, e)` through point `e` with normal `n`:
`offset = -n.dot(e)`. -/
def Hyperplane.through (n e : Vec3) : Hyperplane := ⟨n, -(n.dot e)⟩

/-- Eigen `Hyperplane::signedDistance(p) = normal.dot(p) + offset`. -/
def Hyperplane.signedDistance (pl : Hyperplane) (p : Vec3) : ℝ :=
  pl.normal.dot p + pl.offset

/-- Eigen `Hyperplane::projection(p) = p - signedDistance(p) * normal`. -/
def Hyperplane.projPoint (pl : Hyperplane) (p : Vec3) : Vec3 :=
  p - (pl.signedDistance p) • pl.normal

/-- Eigen `ParametrizedLine::intersectionParameter(hyperplane)`:
`-(plane.offset + plane.normal.dot(origin)) / plane.normal.dot(direction)`. -/
noncomputable def ParametrizedLine.intersectionParameter (l : ParametrizedLine) (pl : Hyperplane) : ℝ :=
  -(pl.offset + pl.normal.dot l.origin) / pl.normal.dot l.direction

/-- Eigen `ParametrizedLine::intersectionPoint(hyperplane) = pointAt(intersectionParameter)`. -/
noncomputable def ParametrizedLine.intersectionPoint (l : ParametrizedLine) (pl : Hyperplane) : Vec3 :=
  l.pointAt (l.intersectionParameter pl)

/-- Modelled from the spec: the small fixed tolerance `EPSILON` (defined in
`libslic3r.h`, which is not part of the sources here, as `1e-4`); the spec
calls it "a small fixed tolerance". -/
noncomputable def EPSILON : ℝ := 1 / 10000

/-- Modelled from the spec: `is_approx(value, test_value)` from `libslic3r.h`
(not part of the sources here), true when the two values differ by less than
the fixed tolerance; the spec describes it as "within tolerance". -/
def is_approx (value test_value : ℝ) : Prop := |value - test_value| < EPSILON

noncomputable instance (a b : ℝ) : Decidable (is_approx a b) := by
  unfold is_approx; infer_instance

/-- `DrainHole` value type from `Hollowing.hpp`/`Hollowing.cpp`: cylinder base
center `pos`, unit axis direction `normal`, `radius`, `height`. -/
structure DrainHole where
  pos : Vec3
  normal : Vec3
  radius : ℝ
  height : ℝ

/-- `DrainHole::is_inside` (Hollowing.cpp lines 129-141):
builds the base plane through `pos` with normal `normal`, rejects when the
signed distance is `< EPSILON` or `> height`, then accepts iff the squared
distance to the axis line is `< pow(radius, 2)`.  Pure: the hole is only
read. -/
noncomputable def DrainHole.is_inside (hole : DrainHole) (pt : Vec3) : Bool :=
  if (Hyperplane.through hole.normal hole.pos).signedDistance pt < EPSILON ∨
      (Hyperplane.through hole.normal hole.pos).signedDistance pt > hole.height then
    false
  else
    if (ParametrizedLine.mk hole.pos hole.normal).squaredDistance pt < hole.radius ^ 2 then
      true
    else
      false

/-- One end-cap probe of `DrainHole::get_intersections` (Hollowing.cpp lines
171-182), for loop index `i` (the source iterates `i = 1` then `i = 0` via
unsigned wraparound): the cap plane through `pos + i*height*normal`; the
ray/plane intersection point is accepted when its squared distance to the cap
center is below `radius^2`, recording the intersection parameter and the
inward axial normal (`+normal` for the near cap `i = 0`, `-normal` for the far
cap `i = 1`). -/
noncomputable def capHit (hole : DrainHole) (ray : ParametrizedLine) (i : ℕ) :
    Option (ℝ × Vec3) :=
  let cylinder_center := hole.pos + ((i : ℝ) * hole.height) • hole.normal
  let base := Hyperplane.through hole.normal cylinder_center
  let intersection := ray.intersectionPoint base
  if (cylinder_center - intersection).sqNorm < hole.radius ^ 2 then
    some (ray.intersectionParameter base,
          (if i = 0 then (1 : ℝ) else -1) • hole.normal)
  else
    none

/-- The end-cap hits in the order the source records them (`i = 1`, then
`i = 0`); the whole block is guarded by `!is_approx(dir.dot(normal), 0)`
(skipped for rays perpendicular to the axis). -/
noncomputable def capHitsList (hole : DrainHole) (ray : ParametrizedLine) :
    List (ℝ × Vec3) :=
  if ¬ is_approx (ray.direction.dot hole.normal) 0 then
    (capHit hole ray 1).toList ++ (capHit hole ray 0).toList
  else
    []

/-- The plane `base` in effect when the lateral-wall block runs: the cap loop
always ends with `i = 0`, leaving `base` the plane through `pos`; the `else`
branch assigns the same plane explicitly (Hollowing.cpp lines 184-189). -/
def wallBase (hole : DrainHole) : Hyperplane :=
  Hyperplane.through hole.normal hole.pos

/-- `proj_origin = base.projection(ray.origin())` (Hollowing.cpp line 194). -/
def wallProjOrigin (hole : DrainHole) (ray : ParametrizedLine) : Vec3 :=
  (wallBase hole).projPoint ray.origin

/-- `proj_dir` before normalisation:
`base.projection(ray.origin()+ray.direction()) - proj_origin` (line 195). -/
def wallProjDir0 (hole : DrainHole) (ray : ParametrizedLine) : Vec3 :=
  (wallBase hole).projPoint (ray.origin + ray.direction) - wallProjOrigin hole ray

/-- `par_scale = proj_dir.norm()` (line 197). -/
noncomputable def wallParScale (hole : DrainHole) (ray : ParametrizedLine) : ℝ :=
  (wallProjDir0 hole ray).norm

/-- `projected_ray` with the direction divided by `par_scale` (lines 198-199). -/
noncomputable def wallProjRay (hole : DrainHole) (ray : ParametrizedLine) :
    ParametrizedLine :=
  ⟨wallProjOrigin hole ray, (1 / wallParScale hole ray) • wallProjDir0 hole ray⟩

/-- `closest = projected_ray.projection(pos)` (line 202). -/
noncomputable def wallClosest (hole : DrainHole) (ray : ParametrizedLine) : Vec3 :=
  (wallProjRay hole ray).projPoint hole.pos

/-- The argument of the square root on line 203:
`sqr_radius - (closest-pos).squaredNorm()`. -/
noncomputable def wallDisc (hole : DrainHole) (ray : ParametrizedLine) : ℝ :=
  hole.radius ^ 2 - (wallClosest hole ray - hole.pos).sqNorm

/-- One lateral-wall candidate of `DrainHole::get_intersections`
(Hollowing.cpp lines 203-217), for `i = -1` or `i = +1`:
`dist = sqrt(sqr_radius - (closest-pos).squaredNorm())`,
`isect = closest + i*dist*projected_ray.direction()`,
`par = (isect-proj_origin).norm() / par_scale`,
`hit_normal = (pos-isect).normalized()`, then re-evaluate
`isect = ray.pointAt(par)` and accept iff
`base.signedDistance(isect)` is strictly between `0` and `height`.
In C++ a negative square-root argument yields NaN, which propagates through
`isect`, `par` and `vert_dist` and makes both comparisons of the acceptance
test false; this is embedded by conjoining `0 ≤ wallDisc` to the test. -/
noncomputable def wallHit (hole : DrainHole) (ray : ParametrizedLine) (i : ℝ) :
    Option (ℝ × Vec3) :=
  let dist := Real.sqrt (wallDisc hole ray)
  let isect := wallClosest hole ray + (i * dist) • (wallProjRay hole ray).direction
  let par := (isect - wallProjOrigin hole ray).norm / wallParScale hole ray
  let hit_normal := (hole.pos - isect).normalized
  let isect3 := ray.pointAt par
  let vert_dist := (wallBase hole).signedDistance isect3
  if 0 ≤ wallDisc hole ray ∧ vert_dist > 0 ∧ vert_dist < hole.height then
    some (par, hit_normal)
  else
    none

/-- All hits `DrainHole::get_intersections` accepts, in recording order: the
cap hits, then — only when fewer than 2 hits exist so far and the ray is not
nearly parallel to the axis (`!is_approx(|dir.dot(normal)|, 1)`) — the wall
candidates `i = -1`, `i = +1`, the wall loop stopping as soon as 2 total hits
exist (`found != 2` loop condition, lines 191-218). -/
noncomputable def capWallHits (hole : DrainHole) (ray : ParametrizedLine) :
    List (ℝ × Vec3) :=
  let caps := capHitsList hole ray
  if caps.length ≠ 2 ∧ ¬ is_approx |ray.direction.dot hole.normal| 1 then
    caps ++ ((wallHit hole ray (-1)).toList ++ (wallHit hole ray 1).toList).take
      (2 - caps.length)
  else
    caps

/-- The bounding-sphere prefilter (Hollowing.cpp lines 160-164): reject when
the squared distance from the line to the cylinder midpoint exceeds
`(height/2)^2 + radius^2`. -/
noncomputable def boundingSphereReject (hole : DrainHole) (ray : ParametrizedLine) :
    Prop :=
  ray.squaredDistance (hole.pos + (hole.height / 2) • hole.normal) >
    (hole.height / 2) ^ 2 + hole.radius ^ 2

noncomputable instance (hole : DrainHole) (ray : ParametrizedLine) :
    Decidable (boundingSphereReject hole ray) := by
  unfold boundingSphereReject; infer_instance

/-- The hits the algorithm accepts for a given ray: none when the
bounding-sphere prefilter rejects (the cap/wall stages never run), else the
cap and wall hits in recording order. -/
noncomputable def acceptedHits (hole : DrainHole) (ray : ParametrizedLine) :
    List (ℝ × Vec3) :=
  if boundingSphereReject hole ray then [] else capWallHits hole ray

/-- `DrainHole::get_intersections` on the already-normalised ray
(Hollowing.cpp lines 147-229): report success exactly when 2 hits were
accepted, swapping the two hits into ascending parameter order
(`if (out[0].first > out[1].first) std::swap(...)`); on failure the partially
filled output slots are returned as-is. -/
noncomputable def getIntersectionsRay (hole : DrainHole) (ray : ParametrizedLine) :
    Bool × List (ℝ × Vec3) :=
  if boundingSphereReject hole ray then
    (false, [])
  else
    match capWallHits hole ray with
    | [a, b] => if a.1 > b.1 then (true, [b, a]) else (true, [a, b])
    | hits => (false, hits)

/-- `DrainHole::get_intersections(s, dir, out)` (Hollowing.cpp lines 147-229):
the query direction is used only to build
`ray = ParametrizedLine(s, dir.normalized())`. -/
noncomputable def get_intersections (hole : DrainHole) (s dir : Vec3) :
    Bool × List (ℝ × Vec3) :=
  getIntersectionsRay hole ⟨s, dir.normalized⟩

/-- Membership of a point on the boundary of the finite cylinder described by
a `DrainHole` with unit `normal`: either on the lateral wall (axial
coordinate within `[0, height]`, radial squared distance exactly `radius^2`)
or on one of the two flat end caps.  Modelled from the spec: "the finite
cylinder's boundary (two flat end caps plus the lateral curved wall)". -/
def onCylinderBoundary (hole : DrainHole) (p : Vec3) : Prop :=
  (0 ≤ hole.normal.dot (p - hole.pos) ∧ hole.normal.dot (p - hole.pos) ≤ hole.height ∧
    ((p - hole.pos) - (hole.normal.dot (p - hole.pos)) • hole.normal).sqNorm =
      hole.radius ^ 2) ∨
  ((hole.normal.dot (p - hole.pos) = 0 ∨ hole.normal.dot (p - hole.pos) = hole.height) ∧
    ((p - hole.pos) - (hole.normal.dot (p - hole.pos)) • hole.normal).sqNorm ≤
      hole.radius ^ 2)

/-- A surface as the list of its points: the generic capability set the shell
generator needs (`_scale` / iterate points), shared by the `TriangleMesh` and
`Contour3D` instantiations of `_generate_interior`. -/
def Surface : Type := List Vec3

/-- `_scale(s, m)`: multiply every point of the surface by `s`
(Hollowing.cpp lines 20-27). -/
def scaleSurface (s : ℝ) (m : Surface) : Surface :=
  List.map (fun p => s • p) m

/-- `HollowingConfig` fields used by `generate_interior`. -/
structure HollowingConfig where
  quality : ℝ
  min_thickness : ℝ
  closing_distance : ℝ

/-- `JobController`: the cancellation query, modelled by the answer of its
`k`-th invocation (`statuscb` reports are recorded in the event trace). -/
structure JobController where
  stopcondition : ℕ → Bool

/-- Observable events of one `_generate_interior` run, in order: cancellation
polls, status reports, and the calls into the external OpenVDB engine. -/
inductive HEvent where
  | poll (answer : Bool)
  | status (percent : ℕ) (label : String)
  | buildGrid (surface : Surface) (exteriorBand interiorBand : ℝ)
  | logError (msg : String)
  | redistance (isovalue bandWidth : ℝ)
  | extract (isovalue adaptivity : ℝ)

/-- The external volumetric engine (`mesh_to_grid`, `redistance_grid`,
`grid_to_mesh`), opaque to this core; `mesh_to_grid` may fail and return no
grid.  The identity transform argument of `mesh_to_grid` is fixed and
omitted. -/
structure VdbEngine (G : Type) where
  mesh_to_grid : Surface → ℝ → ℝ → Option G
  redistance_grid : G → ℝ → ℝ → G
  grid_to_mesh : G → ℝ → ℝ → Surface

/-- `MAX_OVERSAMPL = 7.` (Hollowing.cpp line 107). -/
def MAX_OVERSAMPL : ℝ := 7

/-- The grid the isosurface is extracted from (Hollowing.cpp lines 84-88):
redistanced at isovalue `-(offset + D)` with band `in_range` when
`closing_dist > 0`, the original grid otherwise. -/
noncomputable def hollowGrid {G : Type} (eng : VdbEngine G) (grid : G)
    (offset D in_range closing_dist : ℝ) : G :=
  if closing_dist > 0 then eng.redistance_grid grid (-(offset + D)) in_range
  else grid

/-- The extraction isovalue (Hollowing.cpp lines 84-91): `D` when
`closing_dist > 0`, else `D` is reassigned to `-offset`. -/
noncomputable def hollowIso (offset D closing_dist : ℝ) : ℝ :=
  if closing_dist > 0 then D else -offset

/-- `_generate_interior` (Hollowing.cpp lines 50-101), returning the produced
surface together with the trace of observable events.  `{}` returns are the
empty surface; `assert(gridptr)` is compiled out in release builds and is
modelled as a no-op; the status label `L("Hollowing")` is the translated
string "Hollowing". -/
noncomputable def _generate_interior {G : Type} (eng : VdbEngine G)
    (mesh : Surface) (ctl : JobController)
    (min_thickness voxel_scale closing_dist : ℝ) : Surface × List HEvent :=
  let imesh := scaleSurface voxel_scale mesh
  let offset := voxel_scale * min_thickness
  let D := voxel_scale * closing_dist
  let out_range := (0.1 : ℝ) * offset
  let in_range := (1.1 : ℝ) * (offset + D)
  if ctl.stopcondition 0 then ([], [HEvent.poll true]) else
  let tr0 := [HEvent.poll false, HEvent.status 0 "Hollowing",
              HEvent.buildGrid imesh out_range in_range]
  match eng.mesh_to_grid imesh out_range in_range with
  | none => ([], tr0 ++ [HEvent.logError "Returned OpenVDB grid is NULL"])
  | some grid =>
    if ctl.stopcondition 1 then ([], tr0 ++ [HEvent.poll true]) else
    let tr1 := tr0 ++ [HEvent.poll false, HEvent.status 30 "Hollowing"] ++
               (if closing_dist > 0 then
                  [HEvent.redistance (-(offset + D)) in_range]
                else [])
    if ctl.stopcondition 2 then ([], tr1 ++ [HEvent.poll true]) else
    let tr2 := tr1 ++ [HEvent.poll false, HEvent.status 70 "Hollowing",
                       HEvent.extract (hollowIso offset D closing_dist) 0]
    let omesh := scaleSurface (1 / voxel_scale)
                   (eng.grid_to_mesh (hollowGrid eng grid offset D in_range closing_dist)
                     (hollowIso offset D closing_dist) 0)
    if ctl.stopcondition 3 then ([], tr2 ++ [HEvent.poll true]) else
    (omesh, tr2 ++ [HEvent.poll false, HEvent.status 100 "Hollowing"])

/-- `generate_interior` (Hollowing.cpp lines 103-120):
`voxel_scale = 1.0 + MAX_OVERSAMPL * quality`, then delegate. -/
noncomputable def generate_interior {G : Type} (eng : VdbEngine G)
    (mesh : Surface) (hc : HollowingConfig) (ctl : JobController) :
    Surface × List HEvent :=
  _generate_interior eng mesh ctl hc.min_thickness
    (1 + MAX_OVERSAMPL * hc.quality) hc.closing_distance

/-! Concrete instances used to exercise the definitions: the drain hole of the
spec's concrete scenarios (`pos=(0,0,0)`, `normal=(0,0,1)`, `radius=1`,
`height=2`) and some query lines. -/

/-- The spec's concrete scenario hole. -/
def holeT : DrainHole := ⟨⟨0, 0, 0⟩, ⟨0, 0, 1⟩, 1, 2⟩

theorem sqrt_sixteen : Real.sqrt 16 = 4 := by
  rw [show (16 : ℝ) = 4 ^ 2 by norm_num, Real.sqrt_sq (by norm_num)]

theorem sqrt_twentyfive : Real.sqrt 25 = 5 := by
  rw [show (25 : ℝ) = 5 ^ 2 by norm_num, Real.sqrt_sq (by norm_num)]

theorem sqrt_thirtysix : Real.sqrt 36 = 6 := by
  rw [show (36 : ℝ) = 6 ^ 2 by norm_num, Real.sqrt_sq (by norm_num)]

theorem normalized_ey : Vec3.normalized ⟨0, 1, 0⟩ = ⟨0, 1, 0⟩ := by
  have h : Vec3.sqNorm ⟨0, 1, 0⟩ = 1 := by norm_num [Vec3.sqNorm, Vec3.dot]
  norm_num [Vec3.normalized, Vec3.norm, h, Vec3.smul_def]

/-- The normalised tangent query line of the tangency scenario:
origin `(1,-5,1)`, direction `(0,1,0)`; it touches the lateral wall of
`holeT` at the single point `(1,0,1)`. -/
def rayT1 : ParametrizedLine := ⟨⟨1, -5, 1⟩, ⟨0, 1, 0⟩⟩

theorem rayT1_no_reject : ¬ boundingSphereReject holeT rayT1 := by
  norm_num [boundingSphereReject, holeT, rayT1, ParametrizedLine.squaredDistance,
    Vec3.dot, Vec3.sqNorm, Vec3.sub_def, Vec3.smul_def, Vec3.add_def]

theorem rayT1_caps : capHitsList holeT rayT1 = [] := by
  norm_num [capHitsList, is_approx, EPSILON, holeT, rayT1, Vec3.dot]

theorem rayT1_closest : wallClosest holeT rayT1 = ⟨1, 0, 0⟩ := by
  norm_num [wallClosest, wallProjRay, wallProjOrigin, wallProjDir0, wallParScale,
    wallBase, holeT, rayT1, Hyperplane.through, Hyperplane.projPoint,
    Hyperplane.signedDistance, ParametrizedLine.projPoint, Vec3.dot, Vec3.sqNorm,
    Vec3.norm, Vec3.sub_def, Vec3.smul_def, Vec3.add_def, Real.sqrt_one]

theorem rayT1_disc : wallDisc holeT rayT1 = 0 := by
  unfold wallDisc
  rw [rayT1_closest]
  norm_num [holeT, Vec3.sqNorm, Vec3.dot, Vec3.sub_def]

theorem normalized_negx : Vec3.normalized ⟨-1, 0, 0⟩ = ⟨-1, 0, 0⟩ := by
  have h : Vec3.sqNorm ⟨-1, 0, 0⟩ = 1 := by norm_num [Vec3.sqNorm, Vec3.dot]
  norm_num [Vec3.normalized, Vec3.norm, h, Vec3.smul_def]

theorem rayT1_projOrigin : wallProjOrigin holeT rayT1 = ⟨1, -5, 0⟩ := by
  norm_num [wallProjOrigin, wallBase, holeT, rayT1, Hyperplane.through,
    Hyperplane.projPoint, Hyperplane.signedDistance, Vec3.dot, Vec3.sub_def,
    Vec3.smul_def]

theorem rayT1_parScale : wallParScale holeT rayT1 = 1 := by
  norm_num [wallParScale, wallProjDir0, wallProjOrigin, wallBase, holeT, rayT1,
    Hyperplane.through, Hyperplane.projPoint, Hyperplane.signedDistance,
    Vec3.dot, Vec3.sub_def, Vec3.smul_def, Vec3.add_def, Vec3.norm, Vec3.sqNorm,
    Real.sqrt_one]

theorem rayT1_projRay : wallProjRay holeT rayT1 = ⟨⟨1, -5, 0⟩, ⟨0, 1, 0⟩⟩ := by
  unfold wallProjRay
  rw [rayT1_projOrigin, rayT1_parScale]
  norm_num [wallProjDir0, wallProjOrigin, wallBase, holeT, rayT1,
    Hyperplane.through, Hyperplane.projPoint, Hyperplane.signedDistance,
    Vec3.dot, Vec3.sub_def, Vec3.smul_def, Vec3.add_def]

theorem rayT1_wallHit_neg : wallHit holeT rayT1 (-1) = some (5, ⟨-1, 0, 0⟩) := by
  simp only [wallHit, rayT1_disc, rayT1_closest, rayT1_projRay, rayT1_projOrigin,
    rayT1_parScale, Real.sqrt_zero]
  norm_num [Vec3.smul_def, Vec3.add_def, Vec3.sub_def, Vec3.norm, Vec3.sqNorm,
    Vec3.dot, sqrt_twentyfive, normalized_negx, wallBase, holeT, rayT1,
    Hyperplane.through, Hyperplane.signedDistance, ParametrizedLine.pointAt]

theorem rayT1_wallHit_pos : wallHit holeT rayT1 1 = some (5, ⟨-1, 0, 0⟩) := by
  simp only [wallHit, rayT1_disc, rayT1_closest, rayT1_projRay, rayT1_projOrigin,
    rayT1_parScale, Real.sqrt_zero]
  norm_num [Vec3.smul_def, Vec3.add_def, Vec3.sub_def, Vec3.norm, Vec3.sqNorm,
    Vec3.dot, sqrt_twentyfive, normalized_negx, wallBase, holeT, rayT1,
    Hyperplane.through, Hyperplane.signedDistance, ParametrizedLine.pointAt]

theorem rayT1_capWall :
    capWallHits holeT rayT1 = [(5, ⟨-1, 0, 0⟩), (5, ⟨-1, 0, 0⟩)] := by
  simp only [capWallHits, rayT1_caps, rayT1_wallHit_neg, rayT1_wallHit_pos]
  norm_num [is_approx, EPSILON, holeT, rayT1, Vec3.dot]

theorem rayT1_result :
    getIntersectionsRay holeT rayT1 = (true, [(5, ⟨-1, 0, 0⟩), (5, ⟨-1, 0, 0⟩)]) := by
  simp only [getIntersectionsRay, rayT1_capWall, if_neg rayT1_no_reject]
  norm_num

/-- The normalised query line of the sign-loss scenario: origin `(0,5,1)`,
direction `(0,1,0)`; the full line meets the lateral wall of `holeT` only at
parameters `-4` and `-6`, behind the origin. -/
def rayT2 : ParametrizedLine := ⟨⟨0, 5, 1⟩, ⟨0, 1, 0⟩⟩

theorem normalized_negy : Vec3.normalized ⟨0, -1, 0⟩ = ⟨0, -1, 0⟩ := by
  have h : Vec3.sqNorm ⟨0, -1, 0⟩ = 1 := by norm_num [Vec3.sqNorm, Vec3.dot]
  norm_num [Vec3.normalized, Vec3.norm, h, Vec3.smul_def]

theorem rayT2_no_reject : ¬ boundingSphereReject holeT rayT2 := by
  norm_num [boundingSphereReject, holeT, rayT2, ParametrizedLine.squaredDistance,
    Vec3.dot, Vec3.sqNorm, Vec3.sub_def, Vec3.smul_def, Vec3.add_def]

theorem rayT2_caps : capHitsList holeT rayT2 = [] := by
  norm_num [capHitsList, is_approx, EPSILON, holeT, rayT2, Vec3.dot]

theorem rayT2_projOrigin : wallProjOrigin holeT rayT2 = ⟨0, 5, 0⟩ := by
  norm_num [wallProjOrigin, wallBase, holeT, rayT2, Hyperplane.through,
    Hyperplane.projPoint, Hyperplane.signedDistance, Vec3.dot, Vec3.sub_def,
    Vec3.smul_def]

theorem rayT2_parScale : wallParScale holeT rayT2 = 1 := by
  norm_num [wallParScale, wallProjDir0, wallProjOrigin, wallBase, holeT, rayT2,
    Hyperplane.through, Hyperplane.projPoint, Hyperplane.signedDistance,
    Vec3.dot, Vec3.sub_def, Vec3.smul_def, Vec3.add_def, Vec3.norm, Vec3.sqNorm,
    Real.sqrt_one]

theorem rayT2_projRay : wallProjRay holeT rayT2 = ⟨⟨0, 5, 0⟩, ⟨0, 1, 0⟩⟩ := by
  unfold wallProjRay
  rw [rayT2_projOrigin, rayT2_parScale]
  norm_num [wallProjDir0, wallProjOrigin, wallBase, holeT, rayT2,
    Hyperplane.through, Hyperplane.projPoint, Hyperplane.signedDistance,
    Vec3.dot, Vec3.sub_def, Vec3.smul_def, Vec3.add_def]

theorem rayT2_closest : wallClosest holeT rayT2 = ⟨0, 0, 0⟩ := by
  unfold wallClosest
  rw [rayT2_projRay]
  norm_num [holeT, ParametrizedLine.projPoint, Vec3.dot, Vec3.sub_def,
    Vec3.smul_def, Vec3.add_def]

theorem rayT2_disc : wallDisc holeT rayT2 = 1 := by
  unfold wallDisc
  rw [rayT2_closest]
  norm_num [holeT, Vec3.sqNorm, Vec3.dot, Vec3.sub_def]

theorem rayT2_wallHit_neg : wallHit holeT rayT2 (-1) = some (6, ⟨0, 1, 0⟩) := by
  simp only [wallHit, rayT2_disc, rayT2_closest, rayT2_projRay, rayT2_projOrigin,
    rayT2_parScale, Real.sqrt_one]
  norm_num [Vec3.smul_def, Vec3.add_def, Vec3.sub_def, Vec3.norm, Vec3.sqNorm,
    Vec3.dot, sqrt_thirtysix, normalized_ey, wallBase, holeT, rayT2,
    Hyperplane.through, Hyperplane.signedDistance, ParametrizedLine.pointAt]

theorem rayT2_wallHit_pos : wallHit holeT rayT2 1 = some (4, ⟨0, -1, 0⟩) := by
  simp only [wallHit, rayT2_disc, rayT2_closest, rayT2_projRay, rayT2_projOrigin,
    rayT2_parScale, Real.sqrt_one]
  norm_num [Vec3.smul_def, Vec3.add_def, Vec3.sub_def, Vec3.norm, Vec3.sqNorm,
    Vec3.dot, sqrt_sixteen, normalized_negy, wallBase, holeT, rayT2,
    Hyperplane.through, Hyperplane.signedDistance, ParametrizedLine.pointAt]

theorem rayT2_result :
    getIntersectionsRay holeT rayT2 = (true, [(4, ⟨0, -1, 0⟩), (6, ⟨0, 1, 0⟩)]) := by
  have hw : capWallHits holeT rayT2 = [(6, ⟨0, 1, 0⟩), (4, ⟨0, -1, 0⟩)] := by
    simp only [capWallHits, rayT2_caps, rayT2_wallHit_neg, rayT2_wallHit_pos]
    norm_num [is_approx, EPSILON, holeT, rayT2, Vec3.dot]
  simp only [getIntersectionsRay, hw, if_neg rayT2_no_reject]
  norm_num

/-- The normalised query line of the negative-discriminant scenario: origin
`(6/5,-5,1)`, direction `(0,1,0)`; it passes the bounding-sphere test of
`holeT` but misses the lateral wall (closest approach `6/5 > radius`). -/
noncomputable def rayT3 : ParametrizedLine := ⟨⟨6/5, -5, 1⟩, ⟨0, 1, 0⟩⟩

theorem rayT3_caps : capHitsList holeT rayT3 = [] := by
  norm_num [capHitsList, is_approx, EPSILON, holeT, rayT3, Vec3.dot]

theorem rayT3_projOrigin : wallProjOrigin holeT rayT3 = ⟨6/5, -5, 0⟩ := by
  norm_num [wallProjOrigin, wallBase, holeT, rayT3, Hyperplane.through,
    Hyperplane.projPoint, Hyperplane.signedDistance, Vec3.dot, Vec3.sub_def,
    Vec3.smul_def]

theorem rayT3_parScale : wallParScale holeT rayT3 = 1 := by
  norm_num [wallParScale, wallProjDir0, wallProjOrigin, wallBase, holeT, rayT3,
    Hyperplane.through, Hyperplane.projPoint, Hyperplane.signedDistance,
    Vec3.dot, Vec3.sub_def, Vec3.smul_def, Vec3.add_def, Vec3.norm, Vec3.sqNorm,
    Real.sqrt_one]

theorem rayT3_projRay : wallProjRay holeT rayT3 = ⟨⟨6/5, -5, 0⟩, ⟨0, 1, 0⟩⟩ := by
  unfold wallProjRay
  rw [rayT3_projOrigin, rayT3_parScale]
  norm_num [wallProjDir0, wallProjOrigin, wallBase, holeT, rayT3,
    Hyperplane.through, Hyperplane.projPoint, Hyperplane.signedDistance,
    Vec3.dot, Vec3.sub_def, Vec3.smul_def, Vec3.add_def]

theorem rayT3_closest : wallClosest holeT rayT3 = ⟨6/5, 0, 0⟩ := by
  unfold wallClosest
  rw [rayT3_projRay]
  norm_num [holeT, ParametrizedLine.projPoint, Vec3.dot, Vec3.sub_def,
    Vec3.smul_def, Vec3.add_def]

theorem rayT3_disc : wallDisc holeT rayT3 = -(11/25) := by
  unfold wallDisc
  rw [rayT3_closest]
  norm_num [holeT, Vec3.sqNorm, Vec3.dot, Vec3.sub_def]

/-- The Eigen plane built from a normal and a point evaluates signed distances
against that point. -/
theorem signedDistance_through (n e p : Vec3) :
    (Hyperplane.through n e).signedDistance p = n.dot (p - e) := by
  simp only [Hyperplane.through, Hyperplane.signedDistance, Vec3.dot_sub]
  ring

/-- The Eigen line squared-distance formula, rewritten with the commuted dot
product. -/
theorem axis_squaredDistance (o n p : Vec3) :
    (ParametrizedLine.mk o n).squaredDistance p =
      ((p - o) - (n.dot (p - o)) • n).sqNorm := by
  unfold ParametrizedLine.squaredDistance
  rw [Vec3.dot_comm (p - o) n]

/-- Characterisation of `DrainHole::is_inside` by the source's two tests. -/
theorem is_inside_iff (hole : DrainHole) (p : Vec3) :
    hole.is_inside p = true ↔
      (EPSILON ≤ hole.normal.dot (p - hole.pos) ∧
       hole.normal.dot (p - hole.pos) ≤ hole.height ∧
       ((p - hole.pos) - (hole.normal.dot (p - hole.pos)) • hole.normal).sqNorm <
         hole.radius ^ 2) := by
  unfold DrainHole.is_inside
  rw [signedDistance_through, axis_squaredDistance]
  split_ifs with h1 h2
  · simp only [Bool.false_eq_true, false_iff]
    intro r
    rcases h1 with h | h
    · linarith [r.1]
    · linarith [r.2.1]
  · simp only [eq_self_iff_true, true_iff]
    push_neg at h1
    exact ⟨h1.1, h1.2, h2⟩
  · simp only [Bool.false_eq_true, false_iff]
    intro r
    exact h2 r.2.2

/-- C1: for a `DrainHole` with unit normal and any point `p`, `is_inside p`
returns true iff the signed distance of `p` from the base plane along the
axis lies in the closed interval `[EPSILON, height]` and the squared
perpendicular distance of `p` to the axis line is strictly below `radius^2`;
the query is a pure function of the hole and the point. -/
theorem C1_is_inside_characterisation (hole : DrainHole) (p : Vec3)
    (hn : hole.normal.sqNorm = 1) :
    hole.is_inside p = true ↔
      (EPSILON ≤ hole.normal.dot (p - hole.pos) ∧
       hole.normal.dot (p - hole.pos) ≤ hole.height ∧
       ((p - hole.pos) - (hole.normal.dot (p - hole.pos)) • hole.normal).sqNorm <
         hole.radius ^ 2) :=
  is_inside_iff hole p

/-- C1 witness: the concrete hole at the concrete point `(0,0,1)`. -/
theorem C1_witness : holeT.is_inside ⟨0, 0, 1⟩ = true := by
  refine (C1_is_inside_characterisation holeT ⟨0, 0, 1⟩
    (by norm_num [holeT, Vec3.sqNorm, Vec3.dot])).mpr ?_
  norm_num [holeT, EPSILON, Vec3.dot, Vec3.sqNorm, Vec3.sub_def, Vec3.smul_def]

theorem Vec3.sqNorm_zero_vec : Vec3.sqNorm ⟨0, 0, 0⟩ = 0 := by
  norm_num [Vec3.sqNorm, Vec3.dot]

theorem EPSILON_pos : (0 : ℝ) < EPSILON := by norm_num [EPSILON]

/-- C8 (amended): for every `DrainHole` with unit normal, if its radius is
positive and its height is at least `2·EPSILON` then `is_inside` accepts the
axis midpoint `pos + normal·height/2`; and — for any radius and height — it
rejects every point whose axial signed distance from the base plane is
negative or exceeds `height`.  (The original claim's midpoint half, for
arbitrary `height > 0`, fails when `height < 2·EPSILON`, because the
midpoint's axial distance `height/2` then falls below the `EPSILON` cut of
the base-plane test.) -/
theorem C8_amended_midpoint (hole : DrainHole) (hn : hole.normal.sqNorm = 1) :
    (0 < hole.radius → 2 * EPSILON ≤ hole.height →
      hole.is_inside (hole.pos + (hole.height / 2) • hole.normal) = true) ∧
    ∀ p : Vec3, (hole.normal.dot (p - hole.pos) < 0 ∨
        hole.height < hole.normal.dot (p - hole.pos)) →
      hole.is_inside p = false := by
  constructor
  · intro hr hh
    refine (is_inside_iff hole _).mpr ?_
    have hmid : hole.pos + (hole.height / 2) • hole.normal - hole.pos =
        (hole.height / 2) • hole.normal := by
      simp [Vec3.add_def, Vec3.sub_def]
    rw [hmid, Vec3.dot_smul_right]
    have hnn : hole.normal.dot hole.normal = 1 := hn
    rw [hnn, mul_one]
    have hz : (hole.height / 2) • hole.normal -
        (hole.height / 2) • hole.normal = (⟨0, 0, 0⟩ : Vec3) := by
      simp [Vec3.sub_def]
    rw [hz, Vec3.sqNorm_zero_vec]
    have hε := EPSILON_pos
    exact ⟨by linarith, by linarith, by positivity⟩
  · intro p hp
    have hc : (Hyperplane.through hole.normal hole.pos).signedDistance p < EPSILON ∨
        (Hyperplane.through hole.normal hole.pos).signedDistance p > hole.height := by
      rw [signedDistance_through]
      have hε := EPSILON_pos
      rcases hp with h | h
      · left; linarith
      · right; exact h
    unfold DrainHole.is_inside
    rw [if_pos hc]

/-- C8 counterexample: a hole with unit normal, positive radius and positive
height (`height = 1/10000 = EPSILON`) whose axis midpoint `is_inside`
rejects, contradicting the claim for arbitrary positive height. -/
noncomputable def hole8 : DrainHole := ⟨⟨0, 0, 0⟩, ⟨0, 0, 1⟩, 1, 1 / 10000⟩

theorem C8_counterexample :
    0 < hole8.radius ∧ 0 < hole8.height ∧ hole8.normal.sqNorm = 1 ∧
    hole8.is_inside (hole8.pos + (hole8.height / 2) • hole8.normal) = false := by
  refine ⟨by norm_num [hole8], by norm_num [hole8],
    by norm_num [hole8, Vec3.sqNorm, Vec3.dot], ?_⟩
  norm_num [hole8, DrainHole.is_inside, Hyperplane.through,
    Hyperplane.signedDistance, EPSILON, Vec3.dot, Vec3.add_def, Vec3.smul_def]

/-- C8 witness: both halves of the amended statement at the concrete hole
`holeT`, at its axis midpoint and at the point `(0,0,3)` beyond its far
cap. -/
theorem C8_witness :
    holeT.is_inside (holeT.pos + (holeT.height / 2) • holeT.normal) = true ∧
    holeT.is_inside ⟨0, 0, 3⟩ = false := by
  have h := C8_amended_midpoint holeT (by norm_num [holeT, Vec3.sqNorm, Vec3.dot])
  refine ⟨h.1 (by norm_num [holeT]) (by norm_num [holeT, EPSILON]), ?_⟩
  refine h.2 ⟨0, 0, 3⟩ ?_
  right
  norm_num [holeT, Vec3.dot, Vec3.sub_def]

/-- C9: `get_intersections` is invariant under positive rescaling of the
direction argument, because the direction is normalised on entry and used
nowhere else. -/
theorem C9_direction_scale_invariance (hole : DrainHole) (s dir : Vec3) (c : ℝ)
    (hdir : dir ≠ ⟨0, 0, 0⟩) (hc : 0 < c) :
    get_intersections hole s (c • dir) = get_intersections hole s dir := by
  unfold get_intersections
  rw [Vec3.normalized_smul c dir hc]

/-- C9 witness: doubling the direction of a concrete query changes nothing. -/
theorem C9_witness :
    get_intersections holeT ⟨1, -5, 1⟩ ((2 : ℝ) • ⟨0, 1, 0⟩) =
      get_intersections holeT ⟨1, -5, 1⟩ ⟨0, 1, 0⟩ :=
  C9_direction_scale_invariance holeT ⟨1, -5, 1⟩ ⟨0, 1, 0⟩ 2
    (by intro h; simpa [Vec3.mk.injEq] using h) (by norm_num)

/-- C10: when the projected line's closest squared distance to the axis
exceeds `radius^2` (negative square-root argument, NaN in C++), neither wall
candidate is accepted, and — absent two cap hits — `get_intersections`
reports no intersection. -/
theorem C10_negative_disc_no_wall_hit (hole : DrainHole) (s dir : Vec3)
    (hcap : (capHitsList hole ⟨s, dir.normalized⟩).length ≠ 2)
    (hdisc : wallDisc hole ⟨s, dir.normalized⟩ < 0) :
    wallHit hole ⟨s, dir.normalized⟩ (-1) = none ∧
    wallHit hole ⟨s, dir.normalized⟩ 1 = none ∧
    (get_intersections hole s dir).1 = false := by
  have hw : ∀ i : ℝ, wallHit hole ⟨s, dir.normalized⟩ i = none := by
    intro i
    unfold wallHit
    rw [if_neg]
    intro hcon
    exact absurd hcon.1 (not_le.mpr hdisc)
  refine ⟨hw (-1), hw 1, ?_⟩
  unfold get_intersections getIntersectionsRay
  by_cases hrej : boundingSphereReject hole ⟨s, dir.normalized⟩
  · rw [if_pos hrej]
  · rw [if_neg hrej]
    have hcw : capWallHits hole ⟨s, dir.normalized⟩ =
        capHitsList hole ⟨s, dir.normalized⟩ := by
      unfold capWallHits
      rw [hw (-1), hw 1]
      simp
    rw [hcw]
    rcases h1 : capHitsList hole ⟨s, dir.normalized⟩ with _ | ⟨a, _ | ⟨b, _ | ⟨c, rest⟩⟩⟩
    · rfl
    · rfl
    · rw [h1] at hcap; simp at hcap
    · rfl

/-- C10 witness: a concrete line inside the bounding sphere of `holeT` but
radially clear of the wall. -/
theorem C10_witness : (get_intersections holeT ⟨6/5, -5, 1⟩ ⟨0, 1, 0⟩).1 = false := by
  have hb : (⟨⟨6/5, -5, 1⟩, Vec3.normalized ⟨0, 1, 0⟩⟩ : ParametrizedLine) = rayT3 := by
    rw [normalized_ey]
    rfl
  refine (C10_negative_disc_no_wall_hit holeT ⟨6/5, -5, 1⟩ ⟨0, 1, 0⟩ ?_ ?_).2.2
  · rw [hb, rayT3_caps]
    norm_num
  · rw [hb, rayT3_disc]
    norm_num

/-- C2 (amended): `get_intersections` reports an intersection exactly when the
total count of accepted hits (end caps plus lateral wall) is 2, and in that
case the two returned hits are ordered by ascending parameter.  (The original
claim's assertion that a single-point tangency is never reported fails: a
line tangent to the lateral wall inside the height range yields the same
touching point accepted twice — once per wall candidate — so it is reported
as an intersection with two equal parameters.) -/
theorem C2_two_hits_sorted (hole : DrainHole) (s dir : Vec3) :
    ((get_intersections hole s dir).1 = true ↔
      (acceptedHits hole ⟨s, dir.normalized⟩).length = 2) ∧
    (∀ a b : ℝ × Vec3, ∀ rest : List (ℝ × Vec3),
      (get_intersections hole s dir).1 = true →
      (get_intersections hole s dir).2 = a :: b :: rest → a.1 ≤ b.1) := by
  unfold get_intersections getIntersectionsRay acceptedHits
  by_cases hrej : boundingSphereReject hole ⟨s, dir.normalized⟩
  · rw [if_pos hrej, if_pos hrej]
    constructor
    · simp
    · intro a b rest h1 h2
      exact absurd h1 (by simp)
  · rw [if_neg hrej, if_neg hrej]
    rcases hl : capWallHits hole ⟨s, dir.normalized⟩ with _ | ⟨a0, _ | ⟨b0, _ | ⟨c0, rest0⟩⟩⟩
    · constructor
      · simp
      · intro a b rest h1 h2
        exact absurd h1 (by simp)
    · constructor
      · simp
      · intro a b rest h1 h2
        exact absurd h1 (by simp)
    · constructor
      · by_cases hgt : a0.1 > b0.1
        · simp [hgt]
        · simp [hgt]
      · intro a b rest h1 h2
        by_cases hgt : a0.1 > b0.1
        · simp only [if_pos hgt, List.cons.injEq] at h2
          obtain ⟨ha, hb, -⟩ := h2
          rw [← ha, ← hb]
          exact le_of_lt hgt
        · simp only [if_neg hgt, List.cons.injEq] at h2
          obtain ⟨ha, hb, -⟩ := h2
          rw [← ha, ← hb]
          exact le_of_not_lt hgt
    · constructor
      · simp
      · intro a b rest h1 h2
        exact absurd h1 (by simp)

/-- C2 counterexample: `rayT1` (origin `(1,-5,1)`, direction `(0,1,0)`) is
tangent to the lateral wall of `holeT` — the square-root argument of the wall
step is exactly `0` and the single touching point `rayT1.pointAt 5 = (1,0,1)`
lies on the cylinder boundary — yet `get_intersections` reports an
intersection, returning the same hit twice. -/
theorem C2_counterexample :
    get_intersections holeT ⟨1, -5, 1⟩ ⟨0, 1, 0⟩ =
      (true, [(5, ⟨-1, 0, 0⟩), (5, ⟨-1, 0, 0⟩)]) ∧
    wallDisc holeT rayT1 = 0 ∧
    onCylinderBoundary holeT (rayT1.pointAt 5) := by
  refine ⟨?_, rayT1_disc, ?_⟩
  · unfold get_intersections
    rw [show (⟨⟨1, -5, 1⟩, Vec3.normalized ⟨0, 1, 0⟩⟩ : ParametrizedLine) = rayT1 from
      by rw [normalized_ey]; rfl]
    exact rayT1_result
  · norm_num [onCylinderBoundary, holeT, rayT1, ParametrizedLine.pointAt,
      Vec3.dot, Vec3.sqNorm, Vec3.sub_def, Vec3.smul_def, Vec3.add_def]

/-- C2 witness: the amended statement, instantiated on a query that returns
two hits. -/
theorem C2_witness : (get_intersections holeT ⟨1, -5, 1⟩ ⟨0, 1, 0⟩).1 = true := by
  refine ((C2_two_hits_sorted holeT ⟨1, -5, 1⟩ ⟨0, 1, 0⟩).1).mpr ?_
  have hb : (⟨⟨1, -5, 1⟩, Vec3.normalized ⟨0, 1, 0⟩⟩ : ParametrizedLine) = rayT1 := by
    rw [normalized_ey]; rfl
  rw [hb]
  unfold acceptedHits
  rw [if_neg rayT1_no_reject, rayT1_capWall]
  rfl

/-- C3: the lateral-wall un-projection `par = (isect-proj_origin).norm() /
par_scale` loses the sign of the parameter (a vector norm is never negative),
so for a line whose wall intersections lie behind the ray origin the code
reports positive parameters whose ray points are not on the cylinder at all:
for `holeT` and the line with origin `(0,5,1)` and direction `(0,1,0)` the
code returns parameters `4` and `6` (ray points `(0,9,1)` and `(0,11,1)`, off
the boundary), while the true boundary intersections of the full line are at
parameters `-4` and `-6`. -/
theorem C3_wall_parameter_sign_bug :
    get_intersections holeT ⟨0, 5, 1⟩ ⟨0, 1, 0⟩ =
      (true, [(4, ⟨0, -1, 0⟩), (6, ⟨0, 1, 0⟩)]) ∧
    ¬ onCylinderBoundary holeT (rayT2.pointAt 4) ∧
    ¬ onCylinderBoundary holeT (rayT2.pointAt 6) ∧
    onCylinderBoundary holeT (rayT2.pointAt (-4)) ∧
    onCylinderBoundary holeT (rayT2.pointAt (-6)) := by
  refine ⟨?_, ?_, ?_, ?_, ?_⟩
  · unfold get_intersections
    rw [show (⟨⟨0, 5, 1⟩, Vec3.normalized ⟨0, 1, 0⟩⟩ : ParametrizedLine) = rayT2 from
      by rw [normalized_ey]; rfl]
    exact rayT2_result
  · norm_num [onCylinderBoundary, holeT, rayT2, ParametrizedLine.pointAt,
      Vec3.dot, Vec3.sqNorm, Vec3.sub_def, Vec3.smul_def, Vec3.add_def]
  · norm_num [onCylinderBoundary, holeT, rayT2, ParametrizedLine.pointAt,
      Vec3.dot, Vec3.sqNorm, Vec3.sub_def, Vec3.smul_def, Vec3.add_def]
  · norm_num [onCylinderBoundary, holeT, rayT2, ParametrizedLine.pointAt,
      Vec3.dot, Vec3.sqNorm, Vec3.sub_def, Vec3.smul_def, Vec3.add_def]
  · norm_num [onCylinderBoundary, holeT, rayT2, ParametrizedLine.pointAt,
      Vec3.dot, Vec3.sqNorm, Vec3.sub_def, Vec3.smul_def, Vec3.add_def]

/-- C4: `generate_interior` computes `voxel_scale = 1 + 7·quality` (so in
`[1,8]` for `quality ∈ [0,1]`), hands the engine the working copy of the
surface scaled by `voxel_scale` together with `out_range = 0.1·offset` and
`in_range = 1.1·(offset + D)` where `offset = voxel_scale·min_thickness` and
`D = voxel_scale·closing_distance`, and scales the extracted result surface
by `1/voxel_scale`. -/
theorem C4_scale_factors {G : Type} (eng : VdbEngine G) (mesh : Surface)
    (hc : HollowingConfig) (ctl : JobController) (grid : G)
    (hq0 : 0 ≤ hc.quality) (hq1 : hc.quality ≤ 1)
    (hstop : ∀ k, ctl.stopcondition k = false)
    (hgrid : eng.mesh_to_grid (scaleSurface (1 + 7 * hc.quality) mesh)
      ((0.1 : ℝ) * ((1 + 7 * hc.quality) * hc.min_thickness))
      ((1.1 : ℝ) * ((1 + 7 * hc.quality) * hc.min_thickness +
        (1 + 7 * hc.quality) * hc.closing_distance)) = some grid) :
    1 ≤ 1 + 7 * hc.quality ∧ 1 + 7 * hc.quality ≤ 8 ∧
    HEvent.buildGrid (scaleSurface (1 + 7 * hc.quality) mesh)
      ((0.1 : ℝ) * ((1 + 7 * hc.quality) * hc.min_thickness))
      ((1.1 : ℝ) * ((1 + 7 * hc.quality) * hc.min_thickness +
        (1 + 7 * hc.quality) * hc.closing_distance)) ∈
      (generate_interior eng mesh hc ctl).2 ∧
    (generate_interior eng mesh hc ctl).1 =
      scaleSurface (1 / (1 + 7 * hc.quality))
        (eng.grid_to_mesh
          (hollowGrid eng grid ((1 + 7 * hc.quality) * hc.min_thickness)
            ((1 + 7 * hc.quality) * hc.closing_distance)
            ((1.1 : ℝ) * ((1 + 7 * hc.quality) * hc.min_thickness +
              (1 + 7 * hc.quality) * hc.closing_distance))
            hc.closing_distance)
          (hollowIso ((1 + 7 * hc.quality) * hc.min_thickness)
            ((1 + 7 * hc.quality) * hc.closing_distance) hc.closing_distance)
          0) := by
  refine ⟨by linarith, by linarith, ?_, ?_⟩
  · simp [generate_interior, _generate_interior, MAX_OVERSAMPL, hstop, hgrid]
  · simp [generate_interior, _generate_interior, MAX_OVERSAMPL, hstop, hgrid]

/-- C4 witness: quality 1, thickness 2, no closing, trivial engine. -/
def freeCtl : JobController := ⟨fun _ => false⟩

/-- An engine with a trivial grid type, always succeeding. -/
def unitEngine : VdbEngine Unit :=
  ⟨fun _ _ _ => some (), fun g _ _ => g, fun _ _ _ => [⟨1, 0, 0⟩]⟩

/-- An engine that always fails to build a grid. -/
def noneEngine : VdbEngine Unit :=
  ⟨fun _ _ _ => none, fun g _ _ => g, fun _ _ _ => []⟩

/-- Quality 1, wall thickness 2, no closing distance. -/
def hcW : HollowingConfig := ⟨1, 2, 0⟩

theorem C4_witness :
    (generate_interior unitEngine [] hcW freeCtl).1 = [⟨1/8, 0, 0⟩] := by
  have h := C4_scale_factors unitEngine [] hcW freeCtl ()
    (by norm_num [hcW]) (by norm_num [hcW]) (fun k => rfl) rfl
  rw [h.2.2.2]
  norm_num [hcW, unitEngine, hollowIso, scaleSurface, Vec3.smul_def]

/-- C5: with `closing_distance > 0` the grid is re-derived by redistancing at
isovalue `-(offset + D)` with band half-width `in_range`, and the isosurface
is extracted at isovalue `D` with adaptivity 0; with `closing_distance = 0`
no redistancing happens and extraction is at isovalue `-offset`, adaptivity
0. -/
theorem C5_closing_branch {G : Type} (eng : VdbEngine G) (mesh : Surface)
    (hc : HollowingConfig) (ctl : JobController) (grid : G)
    (hstop : ∀ k, ctl.stopcondition k = false)
    (hgrid : eng.mesh_to_grid (scaleSurface (1 + 7 * hc.quality) mesh)
      ((0.1 : ℝ) * ((1 + 7 * hc.quality) * hc.min_thickness))
      ((1.1 : ℝ) * ((1 + 7 * hc.quality) * hc.min_thickness +
        (1 + 7 * hc.quality) * hc.closing_distance)) = some grid) :
    (0 < hc.closing_distance →
      HEvent.redistance (-((1 + 7 * hc.quality) * hc.min_thickness +
          (1 + 7 * hc.quality) * hc.closing_distance))
        ((1.1 : ℝ) * ((1 + 7 * hc.quality) * hc.min_thickness +
          (1 + 7 * hc.quality) * hc.closing_distance)) ∈
        (generate_interior eng mesh hc ctl).2 ∧
      HEvent.extract ((1 + 7 * hc.quality) * hc.closing_distance) 0 ∈
        (generate_interior eng mesh hc ctl).2) ∧
    (hc.closing_distance = 0 →
      (∀ iso bw : ℝ, HEvent.redistance iso bw ∉ (generate_interior eng mesh hc ctl).2) ∧
      HEvent.extract (-((1 + 7 * hc.quality) * hc.min_thickness)) 0 ∈
        (generate_interior eng mesh hc ctl).2) := by
  constructor
  · intro hcd
    constructor
    · simp [generate_interior, _generate_interior, MAX_OVERSAMPL, hstop, hgrid, hcd]
    · simp [generate_interior, _generate_interior, MAX_OVERSAMPL, hstop, hgrid,
        hollowIso, hcd]
  · intro hcd
    rw [hcd] at hgrid
    simp only [mul_zero, add_zero] at hgrid
    constructor
    · intro iso bw
      simp [generate_interior, _generate_interior, MAX_OVERSAMPL, hstop, hgrid, hcd]
    · simp [generate_interior, _generate_interior, MAX_OVERSAMPL, hstop, hgrid,
        hollowIso, hcd]

/-- C5 witness: the no-closing branch on a concrete run. -/
theorem C5_witness :
    HEvent.extract (-((1 + 7 * hcW.quality) * hcW.min_thickness)) 0 ∈
      (generate_interior unitEngine [] hcW freeCtl).2 :=
  ((C5_closing_branch unitEngine [] hcW freeCtl () (fun k => rfl) rfl).2
    (by norm_num [hcW])).2

/-- C6: `generate_interior` polls the cancellation query exactly at the four
stage boundaries, before the next stage's work; a positive poll returns the
empty surface at once, with no later engine call or status report (the exact
event trace of each cancellation point is given); on the non-cancelled path
the trace reports progress exactly at 0, 30, 70, 100, in order, each labelled
"Hollowing". -/
theorem C6_stage_trace {G : Type} (eng : VdbEngine G) (mesh : Surface)
    (hc : HollowingConfig) (ctl : JobController) (grid : G) :
    (ctl.stopcondition 0 = true →
      generate_interior eng mesh hc ctl = ([], [HEvent.poll true])) ∧
    (ctl.stopcondition 0 = false →
      eng.mesh_to_grid (scaleSurface (1 + 7 * hc.quality) mesh)
        ((0.1 : ℝ) * ((1 + 7 * hc.quality) * hc.min_thickness))
        ((1.1 : ℝ) * ((1 + 7 * hc.quality) * hc.min_thickness +
          (1 + 7 * hc.quality) * hc.closing_distance)) = some grid →
      ctl.stopcondition 1 = true →
      generate_interior eng mesh hc ctl =
        ([], [HEvent.poll false, HEvent.status 0 "Hollowing",
              HEvent.buildGrid (scaleSurface (1 + 7 * hc.quality) mesh)
                ((0.1 : ℝ) * ((1 + 7 * hc.quality) * hc.min_thickness))
                ((1.1 : ℝ) * ((1 + 7 * hc.quality) * hc.min_thickness +
                  (1 + 7 * hc.quality) * hc.closing_distance)),
              HEvent.poll true])) ∧
    (ctl.stopcondition 0 = false →
      eng.mesh_to_grid (scaleSurface (1 + 7 * hc.quality) mesh)
        ((0.1 : ℝ) * ((1 + 7 * hc.quality) * hc.min_thickness))
        ((1.1 : ℝ) * ((1 + 7 * hc.quality) * hc.min_thickness +
          (1 + 7 * hc.quality) * hc.closing_distance)) = some grid →
      ctl.stopcondition 1 = false → ctl.stopcondition 2 = true →
      generate_interior eng mesh hc ctl =
        ([], [HEvent.poll false, HEvent.status 0 "Hollowing",
              HEvent.buildGrid (scaleSurface (1 + 7 * hc.quality) mesh)
                ((0.1 : ℝ) * ((1 + 7 * hc.quality) * hc.min_thickness))
                ((1.1 : ℝ) * ((1 + 7 * hc.quality) * hc.min_thickness +
                  (1 + 7 * hc.quality) * hc.closing_distance)),
              HEvent.poll false, HEvent.status 30 "Hollowing"] ++
             (if hc.closing_distance > 0 then
                [HEvent.redistance (-((1 + 7 * hc.quality) * hc.min_thickness +
                   (1 + 7 * hc.quality) * hc.closing_distance))
                   ((1.1 : ℝ) * ((1 + 7 * hc.quality) * hc.min_thickness +
                     (1 + 7 * hc.quality) * hc.closing_distance))]
              else []) ++ [HEvent.poll true])) ∧
    (ctl.stopcondition 0 = false →
      eng.mesh_to_grid (scaleSurface (1 + 7 * hc.quality) mesh)
        ((0.1 : ℝ) * ((1 + 7 * hc.quality) * hc.min_thickness))
        ((1.1 : ℝ) * ((1 + 7 * hc.quality) * hc.min_thickness +
          (1 + 7 * hc.quality) * hc.closing_distance)) = some grid →
      ctl.stopcondition 1 = false → ctl.stopcondition 2 = false →
      ctl.stopcondition 3 = true →
      generate_interior eng mesh hc ctl =
        ([], [HEvent.poll false, HEvent.status 0 "Hollowing",
              HEvent.buildGrid (scaleSurface (1 + 7 * hc.quality) mesh)
                ((0.1 : ℝ) * ((1 + 7 * hc.quality) * hc.min_thickness))
                ((1.1 : ℝ) * ((1 + 7 * hc.quality) * hc.min_thickness +
                  (1 + 7 * hc.quality) * hc.closing_distance)),
              HEvent.poll false, HEvent.status 30 "Hollowing"] ++
             (if hc.closing_distance > 0 then
                [HEvent.redistance (-((1 + 7 * hc.quality) * hc.min_thickness +
                   (1 + 7 * hc.quality) * hc.closing_distance))
                   ((1.1 : ℝ) * ((1 + 7 * hc.quality) * hc.min_thickness +
                     (1 + 7 * hc.quality) * hc.closing_distance))]
              else []) ++
             [HEvent.poll false, HEvent.status 70 "Hollowing",
              HEvent.extract (hollowIso ((1 + 7 * hc.quality) * hc.min_thickness)
                ((1 + 7 * hc.quality) * hc.closing_distance) hc.closing_distance) 0,
              HEvent.poll true])) ∧
    (ctl.stopcondition 0 = false →
      eng.mesh_to_grid (scaleSurface (1 + 7 * hc.quality) mesh)
        ((0.1 : ℝ) * ((1 + 7 * hc.quality) * hc.min_thickness))
        ((1.1 : ℝ) * ((1 + 7 * hc.quality) * hc.min_thickness +
          (1 + 7 * hc.quality) * hc.closing_distance)) = some grid →
      ctl.stopcondition 1 = false → ctl.stopcondition 2 = false →
      ctl.stopcondition 3 = false →
      (generate_interior eng mesh hc ctl).2 =
        [HEvent.poll false, HEvent.status 0 "Hollowing",
         HEvent.buildGrid (scaleSurface (1 + 7 * hc.quality) mesh)
           ((0.1 : ℝ) * ((1 + 7 * hc.quality) * hc.min_thickness))
           ((1.1 : ℝ) * ((1 + 7 * hc.quality) * hc.min_thickness +
             (1 + 7 * hc.quality) * hc.closing_distance)),
         HEvent.poll false, HEvent.status 30 "Hollowing"] ++
        (if hc.closing_distance > 0 then
           [HEvent.redistance (-((1 + 7 * hc.quality) * hc.min_thickness +
              (1 + 7 * hc.quality) * hc.closing_distance))
              ((1.1 : ℝ) * ((1 + 7 * hc.quality) * hc.min_thickness +
                (1 + 7 * hc.quality) * hc.closing_distance))]
         else []) ++
        [HEvent.poll false, HEvent.status 70 "Hollowing",
         HEvent.extract (hollowIso ((1 + 7 * hc.quality) * hc.min_thickness)
           ((1 + 7 * hc.quality) * hc.closing_distance) hc.closing_distance) 0,
         HEvent.poll false, HEvent.status 100 "Hollowing"]) := by
  refine ⟨?_, ?_, ?_, ?_, ?_⟩
  · intro h0
    simp [generate_interior, _generate_interior, h0]
  · intro h0 hg h1
    simp [generate_interior, _generate_interior, MAX_OVERSAMPL, h0, hg, h1]
  · intro h0 hg h1 h2
    simp [generate_interior, _generate_interior, MAX_OVERSAMPL, h0, hg, h1, h2]
  · intro h0 hg h1 h2 h3
    simp [generate_interior, _generate_interior, MAX_OVERSAMPL, h0, hg, h1, h2, h3]
  · intro h0 hg h1 h2 h3
    simp [generate_interior, _generate_interior, MAX_OVERSAMPL, h0, hg, h1, h2, h3]

/-- C6 witness: the full non-cancelled trace of a concrete run. -/
theorem C6_witness :
    (generate_interior unitEngine [] hcW freeCtl).2 =
      [HEvent.poll false, HEvent.status 0 "Hollowing",
       HEvent.buildGrid [] (8/5) (88/5),
       HEvent.poll false, HEvent.status 30 "Hollowing",
       HEvent.poll false, HEvent.status 70 "Hollowing",
       HEvent.extract (-16) 0,
       HEvent.poll false, HEvent.status 100 "Hollowing"] := by
  have h := (C6_stage_trace unitEngine [] hcW freeCtl ()).2.2.2.2 rfl rfl rfl rfl rfl
  rw [h]
  norm_num [hcW, hollowIso, scaleSurface]

/-- C7: if the engine returns no grid, `generate_interior` logs the error and
returns the empty surface — the run ends right after the log event, with no
redistancing, no extraction and no further status report, and no fault is
propagated. -/
theorem C7_engine_failure {G : Type} (eng : VdbEngine G) (mesh : Surface)
    (hc : HollowingConfig) (ctl : JobController)
    (h0 : ctl.stopcondition 0 = false)
    (hnone : eng.mesh_to_grid (scaleSurface (1 + 7 * hc.quality) mesh)
      ((0.1 : ℝ) * ((1 + 7 * hc.quality) * hc.min_thickness))
      ((1.1 : ℝ) * ((1 + 7 * hc.quality) * hc.min_thickness +
        (1 + 7 * hc.quality) * hc.closing_distance)) = none) :
    generate_interior eng mesh hc ctl =
      ([], [HEvent.poll false, HEvent.status 0 "Hollowing",
            HEvent.buildGrid (scaleSurface (1 + 7 * hc.quality) mesh)
              ((0.1 : ℝ) * ((1 + 7 * hc.quality) * hc.min_thickness))
              ((1.1 : ℝ) * ((1 + 7 * hc.quality) * hc.min_thickness +
                (1 + 7 * hc.quality) * hc.closing_distance)),
            HEvent.logError "Returned OpenVDB grid is NULL"]) := by
  simp [generate_interior, _generate_interior, MAX_OVERSAMPL, h0, hnone]

/-- C7 witness: a concrete run against the always-failing engine. -/
theorem C7_witness :
    generate_interior noneEngine [] hcW freeCtl =
      ([], [HEvent.poll false, HEvent.status 0 "Hollowing",
            HEvent.buildGrid [] (8/5) (88/5),
            HEvent.logError "Returned OpenVDB grid is NULL"]) := by
  have h := C7_engine_failure noneEngine [] hcW freeCtl rfl rfl
  rw [h]
  norm_num [hcW, scaleSurface]
